import Mathlib

set_option maxRecDepth 100000

/-!
Verification of the SSD1306lite display driver (src/superfreq/ssd1306lite.cpp,
ssd1306lite.h) against its natural-language specification.

The driver is embedded shallowly at two levels of abstraction:

* Line level: the bit-banged two-wire protocol is a list of `LineOp`
  operations (drive CLOCK/DATA high/low).  `LineOp` has no "read" operation
  because the source never reads the lines (it ignores the ACK slot).
* Link level: a transmission is a list of `Event`s: a START condition, a
  STOP condition, or one byte clocked out by `i2cSendByte`.  `linesOfEvents`
  lowers an event trace to the line level.

Machine bytes (`uint8_t`) are modelled as `Nat` with explicit `% 256` at the
two places a wider value is narrowed to `uint8_t` (the `~b` complement in
`ssd1306DataPutByte`, and byte reads from program memory).  C `char` on the
target (avr-gcc) is signed; `charSigned` gives the signed reading of a byte.

The font tables (font6x8.h / font8x16.h) and image arrays live outside src/
and are opaque byte tables per the spec; they are passed as `Nat → Nat`
parameters (a total function models program-memory reads, including the
out-of-bounds reads the code can perform for unchecked glyph indices).
C strings are NUL-terminated byte sequences; they are modelled as the list
of bytes before the terminator.
-/

namespace SSD1306

/-- One operation on the two physical lines.  The source only ever drives the
lines (SCL_high/SCL_low/SDA_high/SDA_low); it never samples them, so the type
has no read constructor. -/
inductive LineOp where
  | sclHigh : LineOp
  | sclLow  : LineOp
  | sdaHigh : LineOp
  | sdaLow  : LineOp
deriving DecidableEq

/-- One link-level event: a START condition, a STOP condition, or one byte
shifted out MSB-first by `i2cSendByte`. -/
inductive Event where
  | start : Event
  | stop  : Event
  | byte  : Nat → Event
deriving DecidableEq

/- Constants from ssd1306lite.cpp / ssd1306lite.h. -/

def SSD1306_ADDR : Nat := 0x78
def SSD1306_CTL_COMMAND : Nat := 0x00
def SSD1306_CTL_DATA : Nat := 0x40
def NUM_ROWS : Nat := 8
def NUM_COLUMNS : Nat := 128
def CMD_SET_COLUMN_LO : Nat := 0x00
def CMD_SET_COLUMN_HI : Nat := 0x10
def CMD_SET_ROW : Nat := 0xb0
def CMD_SET_CONTRAST : Nat := 0x81
def CMD_INVERT_OFF : Nat := 0xa6
def CMD_INVERT_ON : Nat := 0xa7
def CMD_DISPLAY_OFF : Nat := 0xae
def CMD_DISPLAY_ON : Nat := 0xaf

/- ------------------------------------------------------------------ -/
/- Line level: i2cSendBegin, i2cSendEnd, i2cSendByte (lines 446-483). -/

/-- `i2cSendBegin`: SCL high, SDA high, SDA low, SCL low (lines 446-451). -/
def i2cSendBeginLines : List LineOp :=
  [LineOp.sclHigh, LineOp.sdaHigh, LineOp.sdaLow, LineOp.sclLow]

/-- `i2cSendEnd`: SCL low, SDA low, SCL high, SDA high (lines 458-463). -/
def i2cSendEndLines : List LineOp :=
  [LineOp.sclLow, LineOp.sdaLow, LineOp.sclHigh, LineOp.sdaHigh]

/-- The data-bit loop of `i2cSendByte` (lines 471-479): for each mask value
`0x80, 0x40, ..., 0x01` (here `2 ^ k` with `k = 7, 6, ..., 0`), drive DATA
to the bit of `b` selected by the mask, then pulse CLOCK high then low. -/
def i2cSendBitsLines (b : Nat) : Nat → List LineOp
  | 0 => []
  | k + 1 =>
    (if b &&& 2 ^ k ≠ 0 then [LineOp.sdaHigh] else [LineOp.sdaLow]) ++
    [LineOp.sclHigh, LineOp.sclLow] ++ i2cSendBitsLines b k

/-- `i2cSendByte` (lines 470-483): the 8 data bits MSB-first, then DATA high
and one more CLOCK pulse (the unread acknowledgement slot). -/
def i2cSendByteLines (b : Nat) : List LineOp :=
  i2cSendBitsLines b 8 ++ [LineOp.sdaHigh, LineOp.sclHigh, LineOp.sclLow]

/-- Lowering of one link event to line operations. -/
def eventLines : Event → List LineOp
  | Event.start => i2cSendBeginLines
  | Event.stop => i2cSendEndLines
  | Event.byte b => i2cSendByteLines b

/-- Lowering of an event trace to the line level. -/
def linesOfEvents : List Event → List LineOp
  | [] => []
  | e :: es => eventLines e ++ linesOfEvents es

/-- The driven level of the two lines (true = HIGH). -/
structure LineState where
  scl : Bool
  sda : Bool
deriving DecidableEq

def applyLineOp (s : LineState) : LineOp → LineState
  | LineOp.sclHigh => { s with scl := true }
  | LineOp.sclLow => { s with scl := false }
  | LineOp.sdaHigh => { s with sda := true }
  | LineOp.sdaLow => { s with sda := false }

/-- Run a list of line operations from a starting line state. -/
def runLines (s : LineState) (ops : List LineOp) : LineState :=
  ops.foldl applyLineOp s

/-- Idle bus state: both lines HIGH (lines 122-123 of the source). -/
def lineIdle : LineState := { scl := true, sda := true }

/- ------------------------------------------------------------------ -/
/- Controller framing (lines 351-429). -/

/-- `ssd1306CmdBegin` (lines 397-401): START, address byte, command control
byte. -/
def ssd1306CmdBeginEvents : List Event :=
  [Event.start, Event.byte SSD1306_ADDR, Event.byte SSD1306_CTL_COMMAND]

/-- `ssd1306CmdEnd` (lines 410-412): just a STOP. -/
def ssd1306CmdEndEvents : List Event := [Event.stop]

/-- `ssd1306DataBegin` (lines 363-367): START, address byte, data control
byte. -/
def ssd1306DataBeginEvents : List Event :=
  [Event.start, Event.byte SSD1306_ADDR, Event.byte SSD1306_CTL_DATA]

/-- `ssd1306DataEnd` (lines 376-378): just a STOP. -/
def ssd1306DataEndEvents : List Event := [Event.stop]

/-- `ssd1306DataPutByte` (lines 386-388): transmit `~b` when `fInvertData`
is set, else `b`.  Both narrowings to `uint8_t` (the `~` complement and the
byte parameter) appear here as `% 256`; for `b < 256` the inverted value is
exactly `255 - b`. -/
def ssd1306DataPutByte (inv : Bool) (b : Nat) : Event :=
  Event.byte (if inv then 255 - b % 256 else b % 256)

/-- A complete data frame: `ssd1306DataBegin`, then one `ssd1306DataPutByte`
per supplied byte, then `ssd1306DataEnd`.  Every drawing operation in the
source writes its pixel data in exactly this shape. -/
def ssd1306DataFrame (inv : Bool) (bs : List Nat) : List Event :=
  ssd1306DataBeginEvents ++ bs.map (ssd1306DataPutByte inv) ++ ssd1306DataEndEvents

/-- `ssd1306SendCommand` (lines 425-429). -/
def ssd1306SendCommand (b : Nat) : List Event :=
  ssd1306CmdBeginEvents ++ [Event.byte b] ++ ssd1306CmdEndEvents

/- ------------------------------------------------------------------ -/
/- Addressing model and public operations. -/

/-- `setPosition` (lines 142-150): silently no-op when `row >= NUM_ROWS` or
`column >= NUM_COLUMNS`; otherwise one command frame with the three
row/column-select payload bytes. -/
def setPosition (row column : Nat) : List Event :=
  if NUM_ROWS ≤ row ∨ NUM_COLUMNS ≤ column then []
  else
    ssd1306CmdBeginEvents ++
    [Event.byte (CMD_SET_ROW ||| row),
     Event.byte (CMD_SET_COLUMN_HI ||| ((column >>> 4) &&& 0x0f)),
     Event.byte (CMD_SET_COLUMN_LO ||| (column &&& 0x0f))] ++
    ssd1306CmdEndEvents

/-- `invertData` (line 153): records the flag in the object state
(`fInvertData`), transmitting nothing.  The state is just the flag. -/
def invertData (b : Bool) (_fInvertData : Bool) : Bool × List Event := (b, [])

/-- The signed reading of a byte: C `char` is signed on the target
(avr-gcc), so bytes 128..255 compare as negative values. -/
def charSigned (b : Nat) : Int := if b < 128 then (b : Int) else (b : Int) - 256

/-- The glyph-index computation of `text` (line 178):
`uint8_t c = (*s > '{') ? 0 : *s - 32;` with `'{' = 123` and signed `char`
arithmetic narrowed to `uint8_t`. -/
def glyphIndexText (b : Nat) : Nat :=
  if 123 < charSigned b then 0 else ((charSigned b - 32).emod 256).toNat

/-- The glyph-index computation of `text2x` (lines 196 and 207):
`uint8_t c = *s > '}' ? 0 : *s - 32;` with `'}' = 125`. -/
def glyphIndexText2x (b : Nat) : Nat :=
  if 125 < charSigned b then 0 else ((charSigned b - 32).emod 256).toNat

/-- The character loop of `text` (lines 177-182): while characters remain
and `col <= NUM_COLUMNS - 6`, emit the 6 font bytes of the glyph and advance
`col` by 6.  Produces the bytes handed to `ssd1306DataPutByte`. -/
def textBytes (font6x8 : Nat → Nat) : List Nat → Nat → List Nat
  | [], _ => []
  | ch :: s, col =>
    if col ≤ NUM_COLUMNS - 6 then
      (List.range 6).map (fun ix => font6x8 (glyphIndexText ch * 6 + ix)) ++
      textBytes font6x8 s (col + 6)
    else []

/-- `text` (lines 171-184): reject `row > NUM_ROWS - 1`, else one
`setPosition` and one data frame holding the glyph bytes. -/
def text (font6x8 : Nat → Nat) (inv : Bool) (row column : Nat) (str : List Nat) :
    List Event :=
  if NUM_ROWS - 1 < row then []
  else setPosition row column ++ ssd1306DataFrame inv (textBytes font6x8 str column)

/-- One character pass of `text2x` (lines 194-200 with `half = 0`, lines
205-211 with `half = 8`): while characters remain and
`col <= NUM_COLUMNS - 8`, emit 8 of the 16 font bytes of the glyph. -/
def text2xBytes (font8x16 : Nat → Nat) (half : Nat) : List Nat → Nat → List Nat
  | [], _ => []
  | ch :: s, col =>
    if col ≤ NUM_COLUMNS - 8 then
      (List.range 8).map (fun ix => font8x16 (glyphIndexText2x ch * 16 + half + ix)) ++
      text2xBytes font8x16 half s (col + 8)
    else []

/-- `text2x` (lines 189-213): reject `row > NUM_ROWS - 2`, else the upper
glyph halves on `row` and the lower halves on `row + 1`, each pass with its
own `setPosition` and data frame. -/
def text2x (font8x16 : Nat → Nat) (inv : Bool) (row column : Nat) (str : List Nat) :
    List Event :=
  if NUM_ROWS - 2 < row then []
  else
    setPosition row column ++ ssd1306DataFrame inv (text2xBytes font8x16 0 str column) ++
    setPosition (row + 1) column ++ ssd1306DataFrame inv (text2xBytes font8x16 8 str column)

/-- Length of the loop `for (v = start; v < start + len && v < bound; v++)`:
the clipped extent used by the fill/image loops. -/
def clippedLen (start len bound : Nat) : Nat := min (start + len) bound - start

/-- The values visited by that loop, in order. -/
def clippedRows (start len bound : Nat) : List Nat :=
  List.range' start (clippedLen start len bound)

/-- Concatenation of the per-row event traces of a row loop. -/
def eachRow (f : Nat → List Event) : List Nat → List Event
  | [] => []
  | r :: rs => f r ++ eachRow f rs

/-- `fillScreen` (lines 222-231): for each of the 8 rows, `setPosition` to
column 0 and a data frame of 128 copies of the fill byte. -/
def fillScreen (inv : Bool) (fillByte : Nat) : List Event :=
  eachRow
    (fun row => setPosition row 0 ++
      ssd1306DataFrame inv (List.replicate NUM_COLUMNS fillByte))
    (List.range NUM_ROWS)

/-- `fillAreaWithByte` (lines 242-252): row loop clipped to `NUM_ROWS`,
per row a `setPosition` and a data frame of the clipped number of copies
of `b`. -/
def fillAreaWithByte (inv : Bool) (startRow startColumn rows columns b : Nat) :
    List Event :=
  eachRow
    (fun row => setPosition row startColumn ++
      ssd1306DataFrame inv
        (List.replicate (clippedLen startColumn columns NUM_COLUMNS) b))
    (clippedRows startRow rows NUM_ROWS)

/-- The inner loop of `fillAreaWithBytes` (lines 273-276): emit
`pattern[ix++]`, resetting `ix` to 0 once it reaches `patternSize`. -/
def patternBytes (pattern : List Nat) (patternSize : Nat) : Nat → Nat → List Nat
  | 0, _ => []
  | count + 1, ix =>
    pattern.getD ix 0 ::
    patternBytes pattern patternSize count (if patternSize ≤ ix + 1 then 0 else ix + 1)

/-- `fillAreaWithBytes` (lines 268-279): like `fillAreaWithByte` but cycling
through the pattern, with the pattern index reset to 0 at the start of every
row (`unsigned ix = 0;` inside the row loop). -/
def fillAreaWithBytes (inv : Bool) (startRow startColumn rows columns : Nat)
    (pattern : List Nat) (patternSize : Nat) : List Event :=
  eachRow
    (fun row => setPosition row startColumn ++
      ssd1306DataFrame inv
        (patternBytes pattern patternSize
          (clippedLen startColumn columns NUM_COLUMNS) 0))
    (clippedRows startRow rows NUM_ROWS)

/-- `drawImage` (lines 293-306): row loop clipped to `NUM_ROWS`; per display
row the source index restarts at `(row - startRow) * imageColumns` and the
column loop is clipped to `NUM_COLUMNS`.  `image` is the program-memory
byte table; `pgm_read_byte`'s narrowing appears in `ssd1306DataPutByte`. -/
def drawImage (inv : Bool) (startRow startColumn imageRows imageColumns : Nat)
    (image : Nat → Nat) : List Event :=
  eachRow
    (fun row => setPosition row startColumn ++
      ssd1306DataFrame inv
        ((List.range (clippedLen startColumn imageColumns NUM_COLUMNS)).map
          (fun j => image ((row - startRow) * imageColumns + j))))
    (clippedRows startRow imageRows NUM_ROWS)

/-- `setContrast` (lines 309-315): one command frame with the opcode and the
level byte. -/
def setContrast (level : Nat) : List Event :=
  ssd1306CmdBeginEvents ++
  [Event.byte CMD_SET_CONTRAST, Event.byte (level % 256)] ++
  ssd1306CmdEndEvents

/-- `invertScreen` (lines 325-327). -/
def invertScreen (b : Bool) : List Event :=
  ssd1306SendCommand (if b then CMD_INVERT_ON else CMD_INVERT_OFF)

/-- `sleep` (lines 334-336). -/
def sleep (b : Bool) : List Event :=
  ssd1306SendCommand (if b then CMD_DISPLAY_OFF else CMD_DISPLAY_ON)

/-- The `initCommands` table (lines 94-111), in source order. -/
def initCommands : List Nat :=
  [0xae, 0xa8, 63, 0xd3, 0, 0x40, 0xa1, 0xc8, 0x20, 2, 0x81, 127,
   0xa6, 0xa4, 0xd5, 0xf0, 0xd9, 0x22, 0xda, 0x12, 0xdb, 0x20, 0x8d, 0x14, 0xaf]

/-- The event trace of the `initialize` method (lines 119-132): one command
frame streaming the whole `initCommands` table. -/
def initDisplay : List Event :=
  ssd1306CmdBeginEvents ++ initCommands.map Event.byte ++ ssd1306CmdEndEvents

/-- The full line trace of the `initialize` method: it first drives SCL and
SDA high (lines 122-123; the DDR output-mode writes touch no line level),
then transmits the command frame. -/
def initDisplayLines : List LineOp :=
  [LineOp.sclHigh, LineOp.sdaHigh] ++ linesOfEvents initDisplay

/-- A trace that ends with a STOP condition. -/
def endsStop (es : List Event) : Prop := ∃ pre, es = pre ++ [Event.stop]

/-- A trace that is empty or ends with a STOP condition: every frame it
opened has been closed. -/
def EndsClosed (es : List Event) : Prop := es = [] ∨ endsStop es

/-- The per-bit line operations as the spec words them: DATA driven to the
value of bit `i` of `b`, then CLOCK pulsed high then low. -/
def dataBitLines (b i : Nat) : List LineOp :=
  (if (b / 2 ^ i) % 2 = 1 then [LineOp.sdaHigh] else [LineOp.sdaLow]) ++
  [LineOp.sclHigh, LineOp.sclLow]

end SSD1306

namespace SSD1306

set_option maxRecDepth 100000

/- ------------------------------------------------------------------ -/
/- Helper lemmas shared by the claim theorems. -/

/-- For column values in range, the source's shift/mask nibble extraction
agrees with the arithmetic top/bottom 4 bits. -/
theorem nibble_eq : ∀ c < 128, (c >>> 4) &&& 15 = c / 16 ∧ c &&& 15 = c % 16 := by
  decide

/-- For byte values, `255 - b` is the bitwise complement. -/
theorem complement_byte : ∀ b < 256, 255 - b = Nat.xor b 255 := by decide

/-- The mask test `b & (1 << k)` is the arithmetic bit test. -/
theorem and_two_pow_ne (b k : Nat) : b &&& 2 ^ k ≠ 0 ↔ b / 2 ^ k % 2 = 1 := by
  have ht : Nat.testBit b k = decide (b / 2 ^ k % 2 = 1) := Nat.testBit_to_div_mod
  have h2 : (2 : Nat) ^ k ≠ 0 := by positivity
  rw [Nat.and_two_pow]
  constructor
  · intro h
    by_contra hc
    rw [decide_eq_false hc] at ht
    rw [ht] at h
    simp at h
  · intro h
    rw [decide_eq_true h] at ht
    rw [ht]
    simp only [Bool.toNat_true, Nat.one_mul]
    exact h2

theorem eachRow_congr {f g : Nat → List Event} :
    ∀ {rows : List Nat}, (∀ r ∈ rows, f r = g r) → eachRow f rows = eachRow g rows := by
  intro rows
  induction rows with
  | nil => intro _; rfl
  | cons r rs ih =>
    intro h
    simp only [eachRow]
    rw [h r (List.mem_cons_self r rs), ih (fun x hx => h x (List.mem_cons_of_mem r hx))]

theorem eachRow_map (f : Nat → List Event) (g : Nat → Nat) (l : List Nat) :
    eachRow f (l.map g) = eachRow (fun i => f (g i)) l := by
  induction l with
  | nil => rfl
  | cons a l ih => simp only [List.map_cons, eachRow]; rw [ih]

theorem eachRow_range' (f : Nat → List Event) (len : Nat) :
    ∀ start,
      eachRow f (List.range' start len) = eachRow (fun i => f (start + i)) (List.range len) := by
  induction len with
  | zero => intro _; rfl
  | succ n ih =>
    intro start
    have h1 : List.range' start (n + 1) = start :: List.range' (start + 1) n := rfl
    rw [h1, List.range_succ_eq_map]
    simp only [eachRow]
    rw [ih (start + 1), eachRow_map, Nat.add_zero]
    exact congrArg (fun xs => f start ++ xs)
      (eachRow_congr (fun i _ => by
        show f (start + 1 + i) = f (start + Nat.succ i)
        exact congrArg f (by omega)))

/-- A one-byte pattern cycles as a constant fill. -/
theorem patternBytes_singleton (b : Nat) :
    ∀ n, patternBytes [b] 1 n 0 = List.replicate n b := by
  intro n
  induction n with
  | zero => rfl
  | succ m ih =>
    show b :: patternBytes [b] 1 m 0 = b :: List.replicate m b
    rw [ih]

/-- `setPosition` with an out-of-range argument transmits nothing
(lines 142-143). -/
theorem setPosition_out (row column : Nat) (h : 8 ≤ row ∨ 128 ≤ column) :
    setPosition row column = [] := by
  unfold setPosition
  rw [if_pos (by simp only [NUM_ROWS, NUM_COLUMNS]; exact h)]

/-- `setPosition` with in-range arguments emits one command frame with the
three positioning bytes (lines 145-149). -/
theorem setPosition_in (row column : Nat) (h1 : row < 8) (h2 : column < 128) :
    setPosition row column =
      [Event.start, Event.byte 0x78, Event.byte 0x00, Event.byte (0xb0 ||| row),
       Event.byte (0x10 ||| (column / 16)), Event.byte (0x00 ||| (column % 16)),
       Event.stop] := by
  unfold setPosition
  rw [if_neg (by simp only [NUM_ROWS, NUM_COLUMNS]; omega)]
  obtain ⟨n1, n2⟩ := nibble_eq column h2
  simp [ssd1306CmdBeginEvents, ssd1306CmdEndEvents, SSD1306_ADDR, SSD1306_CTL_COMMAND,
    CMD_SET_ROW, CMD_SET_COLUMN_HI, CMD_SET_COLUMN_LO, n1, n2]

theorem endsStop_append (l1 : List Event) {l2 : List Event} (h : endsStop l2) :
    endsStop (l1 ++ l2) := by
  obtain ⟨pre, hp⟩ := h
  exact ⟨l1 ++ pre, by rw [hp, List.append_assoc]⟩

theorem endsStop_dataFrame (inv : Bool) (bs : List Nat) :
    endsStop (ssd1306DataFrame inv bs) :=
  ⟨ssd1306DataBeginEvents ++ bs.map (ssd1306DataPutByte inv), by
    simp [ssd1306DataFrame, ssd1306DataEndEvents]⟩

theorem endsStop_sendCommand (b : Nat) : endsStop (ssd1306SendCommand b) :=
  ⟨ssd1306CmdBeginEvents ++ [Event.byte b], by
    simp [ssd1306SendCommand, ssd1306CmdEndEvents]⟩

theorem endsClosed_setPosition (row column : Nat) : EndsClosed (setPosition row column) := by
  unfold EndsClosed setPosition
  split
  · exact Or.inl rfl
  · refine Or.inr ⟨ssd1306CmdBeginEvents ++
      [Event.byte (CMD_SET_ROW ||| row),
       Event.byte (CMD_SET_COLUMN_HI ||| ((column >>> 4) &&& 0x0f)),
       Event.byte (CMD_SET_COLUMN_LO ||| (column &&& 0x0f))], ?_⟩
    simp [ssd1306CmdEndEvents]

theorem eachRow_endsClosed {f : Nat → List Event} (hf : ∀ r, endsStop (f r)) :
    ∀ rows : List Nat, EndsClosed (eachRow f rows) := by
  intro rows
  induction rows with
  | nil => exact Or.inl rfl
  | cons r rs ih =>
    rcases ih with h | h
    · rw [eachRow, h, List.append_nil]
      exact Or.inr (hf r)
    · exact Or.inr (by rw [eachRow]; exact endsStop_append _ h)

theorem linesOfEvents_append (es1 es2 : List Event) :
    linesOfEvents (es1 ++ es2) = linesOfEvents es1 ++ linesOfEvents es2 := by
  induction es1 with
  | nil => rfl
  | cons e es ih =>
    show eventLines e ++ linesOfEvents (es ++ es2) =
      (eventLines e ++ linesOfEvents es) ++ linesOfEvents es2
    rw [List.append_assoc]
    exact congrArg (fun ls => eventLines e ++ ls) ih

theorem runLines_append (s : LineState) (l1 l2 : List LineOp) :
    runLines s (l1 ++ l2) = runLines (runLines s l1) l2 :=
  List.foldl_append _ _ _ _

/-- A STOP condition leaves both lines HIGH regardless of the prior state. -/
theorem runLines_endLines (s : LineState) : runLines s i2cSendEndLines = lineIdle := rfl

/-- Every trace whose frames are all closed returns the bus to idle. -/
theorem runLines_endsClosed {es : List Event} (h : EndsClosed es) :
    runLines lineIdle (linesOfEvents es) = lineIdle := by
  rcases h with h | ⟨pre, hp⟩
  · rw [h]; rfl
  · rw [hp, linesOfEvents_append, runLines_append]
    rw [show linesOfEvents [Event.stop] = i2cSendEndLines from by
      simp [linesOfEvents, eventLines]]
    exact runLines_endLines _

end SSD1306

namespace SSD1306

/- ------------------------------------------------------------------ -/
/- Claim theorems. -/

/-- Claim C1: for every row and column, `setPosition` with `row >= 8` or
`column >= 128` returns without emitting any bytes on the link; otherwise it
emits exactly one command frame whose three payload bytes are
`0xB0 OR row`, `0x10 OR (top 4 bits of column)` and `0x00 OR (bottom 4 bits
of column)`, in that order. -/
theorem claim_C1 (row column : Nat) :
    (8 ≤ row ∨ 128 ≤ column → setPosition row column = []) ∧
    (row < 8 → column < 128 → setPosition row column =
      [Event.start, Event.byte 0x78, Event.byte 0x00, Event.byte (0xb0 ||| row),
       Event.byte (0x10 ||| (column / 16)), Event.byte (0x00 ||| (column % 16)),
       Event.stop]) :=
  ⟨setPosition_out row column, setPosition_in row column⟩

/-- Witness for C1: row 9 (out of range) emits nothing; row 3, column 37
emits the single position-command frame. -/
theorem claim_C1_witness :
    setPosition 9 37 = [] ∧
    setPosition 3 37 =
      [Event.start, Event.byte 0x78, Event.byte 0x00, Event.byte 0xb3,
       Event.byte 0x12, Event.byte 0x05, Event.stop] :=
  ⟨(claim_C1 9 37).1 (by norm_num),
   ((claim_C1 3 37).2 (by norm_num) (by norm_num)).trans (by decide)⟩

/-- Counterexample for C2 as stated: with the font table `fun i => i % 256`,
the claimed trace ends with the glyph bytes of glyph index 41 (bytes
246..251); the driver actually transmits the glyph bytes of index 73
(table indices 438..443, i.e. bytes 182..187), because `'i'` is character
code 105 and `105 - 32 = 73`, not 41. -/
theorem counterexample_C2 :
    text (fun i => i % 256) false 2 0 [72, 105] ≠
      [Event.start, Event.byte 0x78, Event.byte 0x00, Event.byte 0xb2,
       Event.byte 0x10, Event.byte 0x00, Event.stop,
       Event.start, Event.byte 0x78, Event.byte 0x40,
       Event.byte 240, Event.byte 241, Event.byte 242, Event.byte 243,
       Event.byte 244, Event.byte 245,
       Event.byte 246, Event.byte 247, Event.byte 248, Event.byte 249,
       Event.byte 250, Event.byte 251,
       Event.stop] := by
  decide

/-- Claim C2 (amended): `text 2 0 "Hi"` with data-invert false produces
exactly one position command frame selecting row 2, column 0, followed by
one data frame of 12 payload bytes: the 6 glyph-table bytes for glyph index
40 (`'H'` = 72, 72 - 32 = 40; table indices 240..245) followed by the 6
glyph-table bytes for glyph index 73 (`'i'` = 105, 105 - 32 = 73; table
indices 438..443), for any font table. -/
theorem claim_C2 (font6x8 : Nat → Nat) :
    text font6x8 false 2 0 [72, 105] =
      [Event.start, Event.byte 0x78, Event.byte 0x00, Event.byte 0xb2,
       Event.byte 0x10, Event.byte 0x00, Event.stop,
       Event.start, Event.byte 0x78, Event.byte 0x40,
       Event.byte (font6x8 240 % 256), Event.byte (font6x8 241 % 256),
       Event.byte (font6x8 242 % 256), Event.byte (font6x8 243 % 256),
       Event.byte (font6x8 244 % 256), Event.byte (font6x8 245 % 256),
       Event.byte (font6x8 438 % 256), Event.byte (font6x8 439 % 256),
       Event.byte (font6x8 440 % 256), Event.byte (font6x8 441 % 256),
       Event.byte (font6x8 442 % 256), Event.byte (font6x8 443 % 256),
       Event.stop] := by
  rfl

/-- Counterexample for C3 as stated: character code 10 is outside the
printable range (below 32), yet both glyph-index computations map it to
index 234 = (10 - 32) mod 256, not to 0. -/
theorem counterexample_C3 :
    glyphIndexText 10 = 234 ∧ glyphIndexText2x 10 = 234 ∧ (234 : Nat) ≠ 0 := by
  refine ⟨by decide, by decide, by decide⟩

/-- Claim C3 (amended): `text` maps a character to glyph index 0 exactly
when its signed 8-bit value exceeds `'{'` = 123, i.e. for codes 124..127
(`text2x`: exceeds `'}'` = 125, codes 126..127); every other character maps
to `(code - 32) mod 256` in signed 8-bit arithmetic.  In particular
in-range codes 32..123 (text) / 32..125 (text2x) map to `code - 32`, but a
code below 32 yields the large index `code + 224`, not 0, and codes
128..255 (negative as signed chars) yield `code - 32`, not 0. -/
theorem claim_C3 (b : Nat) (hb : b < 256) :
    (32 ≤ b → b ≤ 123 → glyphIndexText b = b - 32) ∧
    (124 ≤ b → b ≤ 127 → glyphIndexText b = 0) ∧
    (b < 32 → glyphIndexText b = b + 224) ∧
    (128 ≤ b → glyphIndexText b = b - 32) ∧
    (32 ≤ b → b ≤ 125 → glyphIndexText2x b = b - 32) ∧
    (126 ≤ b → b ≤ 127 → glyphIndexText2x b = 0) ∧
    (b < 32 → glyphIndexText2x b = b + 224) ∧
    (128 ≤ b → glyphIndexText2x b = b - 32) := by
  revert hb
  revert b
  decide

/-- Witness for C3 at concrete characters: `'H'` = 72 maps to 40, `'~'` =
126 maps to 0 under `text2x`, and code 200 maps to 168 = 200 - 32. -/
theorem claim_C3_witness :
    glyphIndexText 72 = 40 ∧ glyphIndexText2x 126 = 0 ∧ glyphIndexText 200 = 168 :=
  ⟨((claim_C3 72 (by norm_num)).1 (by norm_num) (by norm_num)).trans (by norm_num),
   (claim_C3 126 (by norm_num)).2.2.2.2.2.1 (by norm_num) (by norm_num),
   ((claim_C3 200 (by norm_num)).2.2.2.1 (by norm_num)).trans (by norm_num)⟩

/-- Claim C4: `invertData` emits no bytes on the link (it only records the
flag); with the flag set, every payload byte of every data frame is
transmitted as the bitwise complement (mod 256) of the byte the drawing
call supplies (every drawing operation writes through `ssd1306DataFrame`);
with the flag clear, bytes are transmitted unmodified.  `255 - b % 256` is
indeed the bitwise complement `xor 255`. -/
theorem claim_C4 :
    (∀ b fInvertData, (invertData b fInvertData).2 = []) ∧
    (∀ bs : List Nat, ssd1306DataFrame true bs =
        ssd1306DataBeginEvents ++ bs.map (fun b => Event.byte (255 - b % 256)) ++
        ssd1306DataEndEvents) ∧
    (∀ bs : List Nat, ssd1306DataFrame false bs =
        ssd1306DataBeginEvents ++ bs.map (fun b => Event.byte (b % 256)) ++
        ssd1306DataEndEvents) ∧
    (∀ b : Nat, 255 - b % 256 = Nat.xor (b % 256) 255) :=
  ⟨fun _ _ => rfl,
   fun bs => by simp [ssd1306DataFrame, ssd1306DataPutByte],
   fun bs => by simp [ssd1306DataFrame, ssd1306DataPutByte],
   fun b => complement_byte (b % 256) (Nat.mod_lt b (by norm_num))⟩

end SSD1306

namespace SSD1306

/-- Counterexample for C5 as stated: the degenerate rectangle with
`startRow = 0, startColumn = 128, imageRows = 1, imageColumns = 0`
satisfies the claim's hypotheses (`0 + 1 <= 8` and `128 + 0 <= 128`), yet
`drawImage` emits zero position-command frames (the claim demands
`imageRows = 1` of them): the whole trace is one empty data frame, and no
row-select byte `0xB0 OR row` appears in it. -/
theorem counterexample_C5 :
    drawImage false 0 128 1 0 (fun _ => 0) =
      [Event.start, Event.byte 0x78, Event.byte 0x40, Event.stop] ∧
    Event.byte 0xb0 ∉ drawImage false 0 128 1 0 (fun _ => 0) := by
  refine ⟨by decide, by decide⟩

/-- Claim C5 (amended): for every rectangle fully inside the screen
(`startRow + imageRows <= 8` and `startColumn + imageColumns <= 128`) with
`startColumn < 128` (this excludes only the degenerate case
`imageColumns = 0, startColumn = 128`) and data-invert false, `drawImage`
transmits exactly `imageRows` position-command frames and exactly
`imageRows * imageColumns` payload bytes: for each image row `i` one
position frame selecting row `startRow + i`, column `startColumn`,
followed by a data frame whose `imageColumns` payload bytes are
`image[i * imageColumns + j]` for `j = 0, ..., imageColumns - 1`. -/
theorem claim_C5 (startRow startColumn imageRows imageColumns : Nat)
    (image : Nat → Nat) (h1 : startRow + imageRows ≤ 8)
    (h2 : startColumn + imageColumns ≤ 128) (h3 : startColumn < 128) :
    drawImage false startRow startColumn imageRows imageColumns image =
      eachRow
        (fun i =>
          [Event.start, Event.byte 0x78, Event.byte 0x00,
           Event.byte (0xb0 ||| (startRow + i)),
           Event.byte (0x10 ||| (startColumn / 16)),
           Event.byte (0x00 ||| (startColumn % 16)), Event.stop,
           Event.start, Event.byte 0x78, Event.byte 0x40] ++
          (List.range imageColumns).map
            (fun j => Event.byte (image (i * imageColumns + j) % 256)) ++
          [Event.stop])
        (List.range imageRows) := by
  have hlist : clippedRows startRow imageRows NUM_ROWS = List.range' startRow imageRows := by
    unfold clippedRows clippedLen NUM_ROWS
    congr 1
    omega
  have hlen : clippedLen startColumn imageColumns NUM_COLUMNS = imageColumns := by
    unfold clippedLen NUM_COLUMNS
    omega
  unfold drawImage
  rw [hlist, eachRow_range' _ imageRows startRow]
  refine eachRow_congr (fun i hi => ?_)
  rw [List.mem_range] at hi
  rw [hlen, setPosition_in (startRow + i) startColumn (by omega) h3,
    Nat.add_sub_cancel_left]
  simp [ssd1306DataFrame, ssd1306DataBeginEvents, ssd1306DataEndEvents,
    ssd1306DataPutByte, SSD1306_ADDR, SSD1306_CTL_DATA, List.map_map, Function.comp]

/-- Witness for C5: a 2-row by 3-column image at row 1, column 4. -/
theorem claim_C5_witness :
    drawImage false 1 4 2 3 (fun ix => 50 + ix) =
      [Event.start, Event.byte 0x78, Event.byte 0x00, Event.byte 0xb1,
       Event.byte 0x10, Event.byte 0x04, Event.stop,
       Event.start, Event.byte 0x78, Event.byte 0x40, Event.byte 50,
       Event.byte 51, Event.byte 52, Event.stop,
       Event.start, Event.byte 0x78, Event.byte 0x00, Event.byte 0xb2,
       Event.byte 0x10, Event.byte 0x04, Event.stop,
       Event.start, Event.byte 0x78, Event.byte 0x40, Event.byte 53,
       Event.byte 54, Event.byte 55, Event.stop] :=
  (claim_C5 1 4 2 3 (fun ix => 50 + ix) (by norm_num) (by norm_num)
    (by norm_num)).trans (by decide)

/-- Claim C6: for all rectangle arguments, byte `b` and invert state,
`fillAreaWithBytes` with the one-byte pattern `[b]` (pattern size 1)
produces a byte-for-byte identical link trace to `fillAreaWithByte` with
`b`. -/
theorem claim_C6 (inv : Bool) (startRow startColumn rows columns b : Nat) :
    fillAreaWithBytes inv startRow startColumn rows columns [b] 1 =
      fillAreaWithByte inv startRow startColumn rows columns b := by
  unfold fillAreaWithBytes fillAreaWithByte
  refine eachRow_congr (fun r _ => ?_)
  rw [patternBytes_singleton]

/-- Claim C7: for every byte value, `i2cSendByte` performs exactly this
line-operation sequence: for each of the 8 bits most-significant first,
DATA is driven to the bit value while CLOCK is low, then CLOCK is driven
high then low; after the 8 data bits, DATA is driven high and CLOCK pulsed
high then low once more (the acknowledgement slot).  No operation reads a
line (`LineOp` has no read constructor): the transmitter never samples a
response. -/
theorem claim_C7 (b : Nat) :
    i2cSendByteLines b =
      dataBitLines b 7 ++ dataBitLines b 6 ++ dataBitLines b 5 ++ dataBitLines b 4 ++
      dataBitLines b 3 ++ dataBitLines b 2 ++ dataBitLines b 1 ++ dataBitLines b 0 ++
      [LineOp.sdaHigh, LineOp.sclHigh, LineOp.sclLow] := by
  have key : ∀ k, (b &&& 2 ^ k ≠ 0) = (b / 2 ^ k % 2 = 1) :=
    fun k => propext (and_two_pow_ne b k)
  simp only [dataBitLines, ← key, i2cSendByteLines, i2cSendBitsLines]
  simp [List.append_assoc]

/-- Counterexample for C8 as stated: the rectangle at `startRow = 0`,
`startColumn = 128`, `rows = 1`, `columns = 1` lies entirely outside the
screen (column 128 is past the right edge), yet `fillAreaWithByte` still
transmits four link symbols: an empty data frame (START, address byte 0x78,
data control byte 0x40, STOP), not nothing. -/
theorem counterexample_C8 :
    fillAreaWithByte false 0 128 1 1 7 =
      [Event.start, Event.byte 0x78, Event.byte 0x40, Event.stop] ∧
    fillAreaWithByte false 0 128 1 1 7 ≠ [] := by
  refine ⟨by decide, by decide⟩

/-- Claim C8 (amended): `fillAreaWithByte` transmits nothing at all when
`startRow >= 8` or `rows = 0` (the row loop never runs).  When the
rectangle is outside the screen only via `startColumn >= 128` or
`columns = 0`, it writes zero payload (display-RAM) bytes but still
transmits, for each clipped row, an empty data frame (START, address byte,
data control byte, STOP) - preceded, when `startColumn < 128`, by the
row's position-command frame. -/
theorem claim_C8 (inv : Bool) (startRow startColumn rows columns b : Nat) :
    (8 ≤ startRow ∨ rows = 0 →
      fillAreaWithByte inv startRow startColumn rows columns b = []) ∧
    (128 ≤ startColumn →
      fillAreaWithByte inv startRow startColumn rows columns b =
        eachRow (fun _ => [Event.start, Event.byte 0x78, Event.byte 0x40, Event.stop])
          (clippedRows startRow rows NUM_ROWS)) ∧
    (columns = 0 →
      fillAreaWithByte inv startRow startColumn rows columns b =
        eachRow (fun row => setPosition row startColumn ++
            [Event.start, Event.byte 0x78, Event.byte 0x40, Event.stop])
          (clippedRows startRow rows NUM_ROWS)) := by
  refine ⟨fun h => ?_, fun h => ?_, fun h => ?_⟩
  · have hz : clippedLen startRow rows NUM_ROWS = 0 := by
      unfold clippedLen NUM_ROWS
      omega
    unfold fillAreaWithByte clippedRows
    rw [hz]
    rfl
  · unfold fillAreaWithByte
    refine eachRow_congr (fun r _ => ?_)
    have hz : clippedLen startColumn columns NUM_COLUMNS = 0 := by
      unfold clippedLen NUM_COLUMNS
      omega
    rw [hz, setPosition_out r startColumn (Or.inr h)]
    simp [ssd1306DataFrame, ssd1306DataBeginEvents, ssd1306DataEndEvents,
      SSD1306_ADDR, SSD1306_CTL_DATA]
  · unfold fillAreaWithByte
    refine eachRow_congr (fun r _ => ?_)
    have hz : clippedLen startColumn columns NUM_COLUMNS = 0 := by
      unfold clippedLen NUM_COLUMNS
      omega
    rw [hz]
    simp [ssd1306DataFrame, ssd1306DataBeginEvents, ssd1306DataEndEvents,
      SSD1306_ADDR, SSD1306_CTL_DATA]

/-- Witness for C8: a fully-below-screen request transmits nothing; a
request at column 128 transmits two empty data frames (rows 0 and 1); a
zero-column request at column 5 still transmits a position frame and an
empty data frame. -/
theorem claim_C8_witness :
    fillAreaWithByte false 8 0 1 1 7 = [] ∧
    fillAreaWithByte false 0 128 2 3 7 =
      [Event.start, Event.byte 0x78, Event.byte 0x40, Event.stop,
       Event.start, Event.byte 0x78, Event.byte 0x40, Event.stop] ∧
    fillAreaWithByte false 0 5 1 0 7 =
      [Event.start, Event.byte 0x78, Event.byte 0x00, Event.byte 0xb0,
       Event.byte 0x10, Event.byte 0x05, Event.stop,
       Event.start, Event.byte 0x78, Event.byte 0x40, Event.stop] :=
  ⟨(claim_C8 false 8 0 1 1 7).1 (Or.inl (by norm_num)),
   ((claim_C8 false 0 128 2 3 7).2.1 (by norm_num)).trans (by decide),
   ((claim_C8 false 0 5 1 0 7).2.2 rfl).trans (by decide)⟩

end SSD1306

namespace SSD1306

/-- Claim C9: starting from both lines HIGH (idle), every public operation
that transmits (the `initialize` sequence `initDisplayLines`, `setPosition`,
`text`, `text2x`, `fillScreen`, `fillAreaWithByte`, `fillAreaWithBytes`,
`drawImage`, `setContrast`, `invertScreen`, `sleep`) returns with both
CLOCK and DATA driven HIGH again: every frame it opens is closed before the
operation returns. -/
theorem claim_C9 :
    runLines lineIdle initDisplayLines = lineIdle ∧
    (∀ row column,
      runLines lineIdle (linesOfEvents (setPosition row column)) = lineIdle) ∧
    (∀ (font6x8 : Nat → Nat) inv row column str,
      runLines lineIdle (linesOfEvents (text font6x8 inv row column str)) = lineIdle) ∧
    (∀ (font8x16 : Nat → Nat) inv row column str,
      runLines lineIdle (linesOfEvents (text2x font8x16 inv row column str)) = lineIdle) ∧
    (∀ inv fillByte,
      runLines lineIdle (linesOfEvents (fillScreen inv fillByte)) = lineIdle) ∧
    (∀ inv startRow startColumn rows columns b,
      runLines lineIdle
        (linesOfEvents (fillAreaWithByte inv startRow startColumn rows columns b)) =
      lineIdle) ∧
    (∀ inv startRow startColumn rows columns pattern patternSize,
      runLines lineIdle
        (linesOfEvents
          (fillAreaWithBytes inv startRow startColumn rows columns pattern patternSize)) =
      lineIdle) ∧
    (∀ inv startRow startColumn imageRows imageColumns image,
      runLines lineIdle
        (linesOfEvents (drawImage inv startRow startColumn imageRows imageColumns image)) =
      lineIdle) ∧
    (∀ level, runLines lineIdle (linesOfEvents (setContrast level)) = lineIdle) ∧
    (∀ b, runLines lineIdle (linesOfEvents (invertScreen b)) = lineIdle) ∧
    (∀ b, runLines lineIdle (linesOfEvents (sleep b)) = lineIdle) := by
  refine ⟨?_, ?_, ?_, ?_, ?_, ?_, ?_, ?_, ?_, ?_, ?_⟩
  · unfold initDisplayLines
    rw [runLines_append]
    rw [show runLines lineIdle [LineOp.sclHigh, LineOp.sdaHigh] = lineIdle from rfl]
    refine runLines_endsClosed (Or.inr ⟨ssd1306CmdBeginEvents ++ initCommands.map Event.byte, ?_⟩)
    simp [initDisplay, ssd1306CmdEndEvents]
  · intro row column
    exact runLines_endsClosed (endsClosed_setPosition row column)
  · intro font6x8 inv row column str
    refine runLines_endsClosed ?_
    unfold EndsClosed text
    split
    · exact Or.inl rfl
    · exact Or.inr (endsStop_append _ (endsStop_dataFrame _ _))
  · intro font8x16 inv row column str
    refine runLines_endsClosed ?_
    unfold EndsClosed text2x
    split
    · exact Or.inl rfl
    · exact Or.inr (endsStop_append _ (endsStop_dataFrame _ _))
  · intro inv fillByte
    exact runLines_endsClosed
      (eachRow_endsClosed (fun r => endsStop_append _ (endsStop_dataFrame _ _)) _)
  · intro inv startRow startColumn rows columns b
    exact runLines_endsClosed
      (eachRow_endsClosed (fun r => endsStop_append _ (endsStop_dataFrame _ _)) _)
  · intro inv startRow startColumn rows columns pattern patternSize
    exact runLines_endsClosed
      (eachRow_endsClosed (fun r => endsStop_append _ (endsStop_dataFrame _ _)) _)
  · intro inv startRow startColumn imageRows imageColumns image
    exact runLines_endsClosed
      (eachRow_endsClosed (fun r => endsStop_append _ (endsStop_dataFrame _ _)) _)
  · intro level
    refine runLines_endsClosed
      (Or.inr ⟨ssd1306CmdBeginEvents ++
        [Event.byte CMD_SET_CONTRAST, Event.byte (level % 256)], ?_⟩)
    simp [setContrast, ssd1306CmdEndEvents]
  · intro b
    exact runLines_endsClosed (Or.inr (endsStop_sendCommand _))
  · intro b
    exact runLines_endsClosed (Or.inr (endsStop_sendCommand _))

/-- Claim C10: `text` does not validate its column argument: for every
`row < 8`, every `column >= 123` and every string, `text` emits zero glyph
payload bytes but still opens and closes one data frame, transmitting the
fixed address byte 0x78 and the data control byte 0x40 on the link; when
`column <= 127` a position-command frame precedes it, and when
`column >= 128` the `setPosition` part is empty. -/
theorem claim_C10 (font6x8 : Nat → Nat) (inv : Bool) (row column : Nat)
    (str : List Nat) (h1 : row < 8) (h2 : 123 ≤ column) :
    text font6x8 inv row column str =
      setPosition row column ++
        [Event.start, Event.byte 0x78, Event.byte 0x40, Event.stop] ∧
    (column ≤ 127 → setPosition row column =
      [Event.start, Event.byte 0x78, Event.byte 0x00, Event.byte (0xb0 ||| row),
       Event.byte (0x10 ||| (column / 16)), Event.byte (0x00 ||| (column % 16)),
       Event.stop]) ∧
    (128 ≤ column → setPosition row column = []) := by
  have hbytes : textBytes font6x8 str column = [] := by
    cases str with
    | nil => rfl
    | cons ch s =>
      simp only [textBytes, NUM_COLUMNS]
      rw [if_neg (by omega)]
  refine ⟨?_, fun h3 => setPosition_in row column h1 (by omega),
    fun h3 => setPosition_out row column (Or.inr h3)⟩
  unfold text
  rw [if_neg (by simp only [NUM_ROWS]; omega), hbytes]
  simp [ssd1306DataFrame, ssd1306DataBeginEvents, ssd1306DataEndEvents,
    SSD1306_ADDR, SSD1306_CTL_DATA]

/-- Witness for C10: at row 2 with the two-character string "Hi", column
123 produces a position frame plus an empty data frame; column 200
produces only the empty data frame. -/
theorem claim_C10_witness :
    text (fun i => i) false 2 123 [72, 105] =
      [Event.start, Event.byte 0x78, Event.byte 0x00, Event.byte 0xb2,
       Event.byte 0x17, Event.byte 0x0b, Event.stop,
       Event.start, Event.byte 0x78, Event.byte 0x40, Event.stop] ∧
    text (fun i => i) false 2 200 [72, 105] =
      [Event.start, Event.byte 0x78, Event.byte 0x40, Event.stop] := by
  constructor
  · obtain ⟨ha, hb, -⟩ :=
      claim_C10 (fun i => i) false 2 123 [72, 105] (by norm_num) (by norm_num)
    rw [ha, hb (by norm_num)]
    decide
  · obtain ⟨ha, -, hc⟩ :=
      claim_C10 (fun i => i) false 2 200 [72, 105] (by norm_num) (by norm_num)
    rw [ha, hc (by norm_num)]
    decide

end SSD1306
